import Mathlib

/-!
Verification of the order typestate model (src/lib.rs of the
rust-typestate crate).

The crate defines an `Order` record parameterized by a state marker type
(`Pending`, `Packaging`, `InDelivery`, `Completed`), with four operations:
`Order.new`, `Order.submit`, `Order.ship`, `Order.complete`.  Each
operation is a pure function; the state marker is part of the type, so
each transition is only defined on the order type carrying its required
source state.

The embedding below translates the records and the four operations
directly from the source.  On top of it, `OrderSt` packs an order in any
of the four states into one sum type, and `Step` is the transition
relation generated by exactly the three transition methods the source
defines; reachability questions about the state machine are settled on
`Step`.
-/

namespace RustTypestate

/-- The `Product` record (src/lib.rs lines 59-64). -/
structure Product where
  id : String
  name : String
  price : Float

/-- `Product::new` (src/lib.rs lines 66-74): copies the borrowed strings. -/
def Product.new (id : String) (name : String) (price : Float) : Product :=
  { id := id, name := name, price := price }

/-- The `User` record (src/lib.rs lines 76-79). -/
structure User where
  id : String

/-- `User::new` (src/lib.rs lines 81-87). -/
def User.new (id : String) : User :=
  { id := id }

/-- State marker `Pending` (src/lib.rs line 107): carries no data. -/
structure Pending

/-- State marker `Packaging` (src/lib.rs line 110): carries no data. -/
structure Packaging

/-- State marker `InDelivery` (src/lib.rs lines 113-115): carries the tracking id. -/
structure InDelivery where
  tracking_id : String

/-- State marker `Completed` (src/lib.rs line 118): carries no data. -/
structure Completed

/-- The `OrderState` trait (src/lib.rs line 103). -/
class OrderState (S : Type)

instance : OrderState Pending := ⟨⟩

instance : OrderState Packaging := ⟨⟩

instance : OrderState InDelivery := ⟨⟩

instance : OrderState Completed := ⟨⟩

/-- The `Order` record (src/lib.rs lines 90-100), parameterized by its state. -/
structure Order (S : Type) [OrderState S] where
  id : String
  user : User
  products : List Product
  state : S

/-- `Order::<Pending>::new` (src/lib.rs lines 127-134). -/
def Order.new (user : User) (products : List Product) : Order Pending :=
  { id := "", user := user, products := products, state := Pending.mk }

/-- `Order::<Pending>::submit` (src/lib.rs lines 137-144). -/
def Order.submit (o : Order Pending) : Order Packaging :=
  { id := o.id, user := o.user, products := o.products, state := Packaging.mk }

/-- `Order::<Packaging>::ship` (src/lib.rs lines 149-158).  The Rust method
takes `impl AsRef of str` and stores an owned copy; on `String` inputs that
is the identity, so the embedding takes the tracking id as a `String`. -/
def Order.ship (o : Order Packaging) (tracking_id : String) : Order InDelivery :=
  { id := o.id, user := o.user, products := o.products,
    state := { tracking_id := tracking_id } }

/-- `Order::<InDelivery>::complete` (src/lib.rs lines 163-170). -/
def Order.complete (o : Order InDelivery) : Order Completed :=
  { id := o.id, user := o.user, products := o.products, state := Completed.mk }

/-- An order in any one of the four states: the configuration space of the
state machine. -/
inductive OrderSt where
  | pending : Order Pending → OrderSt
  | packaging : Order Packaging → OrderSt
  | inDelivery : Order InDelivery → OrderSt
  | completed : Order Completed → OrderSt

/-- The transition relation of the crate: exactly the three transition
methods defined in src/lib.rs, each available only on the order type
carrying its required source state. -/
inductive Step : OrderSt → OrderSt → Prop where
  | submit (o : Order Pending) : Step (OrderSt.pending o) (OrderSt.packaging o.submit)
  | ship (o : Order Packaging) (t : String) :
      Step (OrderSt.packaging o) (OrderSt.inDelivery (o.ship t))
  | complete (o : Order InDelivery) :
      Step (OrderSt.inDelivery o) (OrderSt.completed o.complete)

/-- Reachability: zero or more transitions. -/
abbrev Reachable (a b : OrderSt) : Prop :=
  Relation.ReflTransGen Step a b

/-- The user of an order, in any state. -/
def OrderSt.userOf : OrderSt → User
  | OrderSt.pending o => o.user
  | OrderSt.packaging o => o.user
  | OrderSt.inDelivery o => o.user
  | OrderSt.completed o => o.user

/-- The products of an order, in any state. -/
def OrderSt.productsOf : OrderSt → List Product
  | OrderSt.pending o => o.products
  | OrderSt.packaging o => o.products
  | OrderSt.inDelivery o => o.products
  | OrderSt.completed o => o.products

/-- Every transition preserves the user and the products. -/
theorem Step.preserves_user_products {a b : OrderSt} (h : Step a b) :
    b.userOf = a.userOf ∧ b.productsOf = a.productsOf := by
  cases h <;> exact ⟨rfl, rfl⟩

/-- Claim C1: from creation, the only reachable sequence of states is
Pending, Packaging, InDelivery, Completed.  No transition ever reaches the
Pending state; a transition into Packaging comes only from Pending via
`submit`; a transition into InDelivery comes only from Packaging via
`ship`; a transition into Completed comes only from InDelivery via
`complete`; and Completed has no outgoing transition. -/
theorem C1_linear_state_path :
    (∀ (a : OrderSt) (b : Order Pending), ¬ Step a (OrderSt.pending b)) ∧
    (∀ (a : OrderSt) (b : Order Packaging), Step a (OrderSt.packaging b) →
      ∃ o : Order Pending, a = OrderSt.pending o ∧ b = o.submit) ∧
    (∀ (a : OrderSt) (b : Order InDelivery), Step a (OrderSt.inDelivery b) →
      ∃ (o : Order Packaging) (t : String), a = OrderSt.packaging o ∧ b = o.ship t) ∧
    (∀ (a : OrderSt) (b : Order Completed), Step a (OrderSt.completed b) →
      ∃ o : Order InDelivery, a = OrderSt.inDelivery o ∧ b = o.complete) ∧
    (∀ (o : Order Completed) (b : OrderSt), ¬ Step (OrderSt.completed o) b) := by
  refine ⟨?_, ?_, ?_, ?_, ?_⟩
  · intro a b h
    cases h
  · intro a b h
    cases h
    exact ⟨_, rfl, rfl⟩
  · intro a b h
    cases h
    exact ⟨_, _, rfl, rfl⟩
  · intro a b h
    cases h
    exact ⟨_, rfl, rfl⟩
  · intro o b h
    cases h

/-- Witness for C1: it applies at the concrete `submit` transition out of a
freshly created order. -/
theorem C1_linear_state_path_witness :
    ∃ o : Order Pending,
      OrderSt.pending (Order.new (User.new "user-1") []) = OrderSt.pending o ∧
      (Order.new (User.new "user-1") []).submit = o.submit :=
  C1_linear_state_path.2.1 _ _ (Step.submit (Order.new (User.new "user-1") []))

/-- Claim C2: shipping or completing a Pending order, and completing a
Packaging order, are not expressible: no transition relates a Pending
configuration to an InDelivery or Completed configuration, none relates a
Packaging configuration to a Completed configuration, and the only
transition out of a Pending order is `submit`. -/
theorem C2_invalid_transitions_unrepresentable :
    (∀ (o : Order Pending) (b : Order InDelivery),
      ¬ Step (OrderSt.pending o) (OrderSt.inDelivery b)) ∧
    (∀ (o : Order Pending) (b : Order Completed),
      ¬ Step (OrderSt.pending o) (OrderSt.completed b)) ∧
    (∀ (o : Order Packaging) (b : Order Completed),
      ¬ Step (OrderSt.packaging o) (OrderSt.completed b)) ∧
    (∀ (o : Order Pending) (b : OrderSt),
      Step (OrderSt.pending o) b → b = OrderSt.packaging o.submit) := by
  refine ⟨?_, ?_, ?_, ?_⟩
  · intro o b h
    cases h
  · intro o b h
    cases h
  · intro o b h
    cases h
  · intro o b h
    cases h
    rfl

/-- Witness for C2: it applies at a concrete Pending order and a concrete
InDelivery target. -/
theorem C2_invalid_transitions_unrepresentable_witness :
    ¬ Step (OrderSt.pending (Order.new (User.new "user-1") []))
      (OrderSt.inDelivery ((Order.new (User.new "user-1") []).submit.ship "t")) :=
  C2_invalid_transitions_unrepresentable.1 _ _

/-- Claim C3: for any Packaging order and any string `t` (the empty string
included), `ship` yields an InDelivery order whose state carries the
tracking id `t`, with `id`, `user` and `products` unchanged; `t` is
accepted as given, without validation. -/
theorem C3_ship_sets_tracking_preserves_rest :
    ∀ (o : Order Packaging) (t : String),
      (o.ship t).state.tracking_id = t ∧
      (o.ship t).id = o.id ∧
      (o.ship t).user = o.user ∧
      (o.ship t).products = o.products := by
  intro o t
  exact ⟨rfl, rfl, rfl, rfl⟩

/-- Claim C4: for every user and every product list (the empty list
included), `Order.new` yields a Pending order whose user and products are
the given ones and whose id is the empty string; construction always
succeeds (it is a total function). -/
theorem C4_new_pending_fields :
    ∀ (u : User) (p : List Product),
      (Order.new u p).state = Pending.mk ∧
      (Order.new u p).user = u ∧
      (Order.new u p).products = p ∧
      (Order.new u p).id = "" := by
  intro u p
  exact ⟨rfl, rfl, rfl, rfl⟩

/-- Claim C5: for any Pending order, `submit` yields a Packaging order
with identical `id`, `user` and `products`; only the state marker
changes. -/
theorem C5_submit_frame :
    ∀ o : Order Pending,
      (o.submit).state = Packaging.mk ∧
      (o.submit).id = o.id ∧
      (o.submit).user = o.user ∧
      (o.submit).products = o.products := by
  intro o
  exact ⟨rfl, rfl, rfl, rfl⟩

/-- Claim C6: for any InDelivery order, `complete` yields a Completed
order with identical `id`, `user` and `products`, whose state is the
dataless `Completed` marker: the tracking id is dropped, not carried
forward. -/
theorem C6_complete_drops_tracking :
    ∀ o : Order InDelivery,
      (o.complete).state = Completed.mk ∧
      (o.complete).id = o.id ∧
      (o.complete).user = o.user ∧
      (o.complete).products = o.products := by
  intro o
  exact ⟨rfl, rfl, rfl, rfl⟩

/-- Claim C7: every configuration reachable from `Order.new u p` by any
sequence of transitions has user `u` and products `p`: both are invariant
across all transitions. -/
theorem C7_user_products_invariant :
    ∀ (u : User) (p : List Product) (s : OrderSt),
      Reachable (OrderSt.pending (Order.new u p)) s →
      s.userOf = u ∧ s.productsOf = p := by
  intro u p s h
  induction h with
  | refl => exact ⟨rfl, rfl⟩
  | tail _ hstep ih =>
    have hp := Step.preserves_user_products hstep
    exact ⟨hp.1.trans ih.1, hp.2.trans ih.2⟩

/-- Witness for C7: it applies along the concrete end-to-end run
`new`, `submit`, `ship "tracking-id"`, `complete` on the sample user and
products of the crate test. -/
theorem C7_user_products_invariant_witness :
    (OrderSt.completed
      (((Order.new (User.new "user-1")
        [Product.new "product-1" "Product 1" 10.0,
         Product.new "product-2" "Product 2" 10.0]).submit.ship
            "tracking-id").complete)).userOf = User.new "user-1" ∧
    (OrderSt.completed
      (((Order.new (User.new "user-1")
        [Product.new "product-1" "Product 1" 10.0,
         Product.new "product-2" "Product 2" 10.0]).submit.ship
            "tracking-id").complete)).productsOf =
      [Product.new "product-1" "Product 1" 10.0,
       Product.new "product-2" "Product 2" 10.0] :=
  C7_user_products_invariant _ _ _
    (Relation.ReflTransGen.head (Step.submit _)
      (Relation.ReflTransGen.head (Step.ship _ "tracking-id")
        (Relation.ReflTransGen.head (Step.complete _) Relation.ReflTransGen.refl)))

/-- Claim C8: every operation is total: `Order.new` yields a Pending order
on every input, and every configuration that is not Completed has a
successor under `Step` (every transition, given a correctly-typed input,
succeeds; the operations are pure functions with no failure branch). -/
theorem C8_operations_total :
    (∀ (u : User) (p : List Product), (Order.new u p).state = Pending.mk) ∧
    (∀ s : OrderSt, (∀ o : Order Completed, s ≠ OrderSt.completed o) →
      ∃ t : OrderSt, Step s t) := by
  constructor
  · intro u p
    rfl
  · intro s h
    cases s with
    | pending o => exact ⟨_, Step.submit o⟩
    | packaging o => exact ⟨_, Step.ship o ""⟩
    | inDelivery o => exact ⟨_, Step.complete o⟩
    | completed o => exact absurd rfl (h o)

/-- Witness for C8: it applies at a concrete Pending configuration, whose
not-Completed hypothesis is discharged by constructor disjointness. -/
theorem C8_operations_total_witness :
    ∃ t : OrderSt, Step (OrderSt.pending (Order.new (User.new "user-1") [])) t :=
  C8_operations_total.2 _ (by intro o h; exact OrderSt.noConfusion h)

/-- Claim C10: all fields of `Order` and all four state records are
public: an order in any state, including Completed or InDelivery with an
arbitrary tracking id, can be built directly by a record literal with any
field values, without `Order.new` or any transition, and on an owned value
any field, the state included, can be replaced. -/
theorem C10_public_fields_bypass :
    ∀ (i : String) (u : User) (p : List Product) (t : String),
      (∃ o : Order Pending, o.id = i ∧ o.user = u ∧ o.products = p) ∧
      (∃ o : Order Packaging, o.id = i ∧ o.user = u ∧ o.products = p) ∧
      (∃ o : Order InDelivery,
        o.id = i ∧ o.user = u ∧ o.products = p ∧ o.state.tracking_id = t) ∧
      (∃ o : Order Completed, o.id = i ∧ o.user = u ∧ o.products = p) ∧
      (∀ o : Order InDelivery, ∃ o2 : Order InDelivery,
        o2.id = o.id ∧ o2.user = o.user ∧ o2.products = o.products ∧
        o2.state.tracking_id = t) := by
  intro i u p t
  refine ⟨⟨⟨i, u, p, Pending.mk⟩, rfl, rfl, rfl⟩,
    ⟨⟨i, u, p, Packaging.mk⟩, rfl, rfl, rfl⟩,
    ⟨⟨i, u, p, InDelivery.mk t⟩, rfl, rfl, rfl, rfl⟩,
    ⟨⟨i, u, p, Completed.mk⟩, rfl, rfl, rfl⟩, ?_⟩
  intro o
  exact ⟨{ o with state := InDelivery.mk t }, rfl, rfl, rfl, rfl⟩

end RustTypestate
